import Mathlib

/-!
Verification of the `microsoft/graspologic` repository slice:
the `.github/workflows/publish.yml` CI workflow and the tutorial
notebooks (in particular `docs/tutorials/connectomics/mcc.ipynb`).

The workflow file is embedded as data (trigger filter, jobs, steps and
their `if:` conditions over `github.ref`); the notebooks' own Python
code is embedded both syntactically (a small Python AST, to settle
claims about the presence of loops, branches, try/except and original
logic) and semantically (`compute_match_ratio` as a function on lists).
-/

namespace Graspologic

/-! ## Embedding of `.github/workflows/publish.yml` -/

/-- A step/job `if:` condition appearing in publish.yml: every condition
in that file is a disjunction of equality tests on `github.ref`. -/
inductive GHCond where
  | refEq (s : String)
  | disj (a b : GHCond)
deriving DecidableEq, Repr

/-- Evaluate a condition at a concrete value of `github.ref`. -/
def evalCond (ref : String) : GHCond → Bool
  | .refEq s => ref == s
  | .disj a b => evalCond ref a || evalCond ref b

/-- Kind of work a CI step performs (used to classify the steps of the
pipeline). -/
inductive CIStepKind where
  | checkout | setupPython | installDeps | versionEnv
  | buildPackage | publishPackage | downloadArtifact | publishDocs
  | createRelease | runTests | typeCheck | buildSphinxDocs | runLint
  | codeql | uploadArtifact | runCoverage | depTree
deriving DecidableEq, Repr

/-- A step of a workflow job: its `name:` (or `uses:` when unnamed), its
optional `if:` condition, and its kind. -/
structure WorkflowStep where
  name : String
  condIf : Option GHCond
  kind : CIStepKind
deriving DecidableEq, Repr

/-- The `on: push:` trigger filter of a workflow. -/
structure PushTrigger where
  branches : List String
  pathsIgnore : List String
deriving DecidableEq, Repr

/-- A job of a workflow: its optional `if:` condition, its `needs:` list,
its steps, and the reusable workflow it `uses:` (if any). -/
structure WorkflowJob where
  jobId : String
  condIf : Option GHCond
  needs : List String
  steps : List WorkflowStep
  usesWorkflow : Option String
deriving DecidableEq, Repr

/-- publish.yml, `on: push:`: branches `main` and `dev`, paths-ignore
`.all-contributorsrc` and `CONTRIBUTORS.md`. -/
def publishTrigger : PushTrigger :=
  { branches := ["main", "dev"]
    pathsIgnore := [".all-contributorsrc", "CONTRIBUTORS.md"] }

/-- The condition `github.ref=='refs/heads/main' || github.ref=='refs/heads/dev'`. -/
def mainOrDevCond : GHCond :=
  .disj (.refEq "refs/heads/main") (.refEq "refs/heads/dev")

/-- The `build:` job of publish.yml: it only delegates to the reusable
workflow `./.github/workflows/build.yml`. -/
def buildJob : WorkflowJob :=
  { jobId := "build"
    condIf := none
    needs := []
    steps := []
    usesWorkflow := some "./.github/workflows/build.yml" }

/-- Step `Build Release with setuptools` (`if: github.ref=='refs/heads/main'`). -/
def stepBuildRelease : WorkflowStep :=
  { name := "Build Release with setuptools"
    condIf := some (.refEq "refs/heads/main"), kind := .buildPackage }

/-- Step `Build Prerelease with setuptools` (`if: github.ref=='refs/heads/dev'`). -/
def stepBuildPrerelease : WorkflowStep :=
  { name := "Build Prerelease with setuptools"
    condIf := some (.refEq "refs/heads/dev"), kind := .buildPackage }

/-- Step `Publish with twine` (`if:` main or dev). -/
def stepPublishTwine : WorkflowStep :=
  { name := "Publish with twine", condIf := some mainOrDevCond, kind := .publishPackage }

/-- Step `Publish reference docs (dev branch)` (`if:` dev). -/
def stepPublishDocsDev : WorkflowStep :=
  { name := "Publish reference docs (dev branch)"
    condIf := some (.refEq "refs/heads/dev"), kind := .publishDocs }

/-- Step `Publish reference docs (main branch)` (`if:` main). -/
def stepPublishDocsMain : WorkflowStep :=
  { name := "Publish reference docs (main branch)"
    condIf := some (.refEq "refs/heads/main"), kind := .publishDocs }

/-- Step `Publish latest reference docs (main branch)` (`if:` main). -/
def stepPublishDocsLatest : WorkflowStep :=
  { name := "Publish latest reference docs (main branch)"
    condIf := some (.refEq "refs/heads/main"), kind := .publishDocs }

/-- Step `Create tag and GitHub release` (`if:` main). -/
def stepCreateRelease : WorkflowStep :=
  { name := "Create tag and GitHub release"
    condIf := some (.refEq "refs/heads/main"), kind := .createRelease }

/-- The steps of the `publish:` job of publish.yml, in file order, with
their `if:` conditions. -/
def publishJobSteps : List WorkflowStep :=
  [ { name := "actions/checkout@v2", condIf := none, kind := .checkout }
  , { name := "Set up Python 3.8", condIf := none, kind := .setupPython }
  , { name := "Install dependencies", condIf := none, kind := .installDeps }
  , { name := "Create version environment variable", condIf := none, kind := .versionEnv }
  , stepBuildRelease
  , stepBuildPrerelease
  , stepPublishTwine
  , { name := "Download documentation artifact", condIf := none, kind := .downloadArtifact }
  , stepPublishDocsDev
  , stepPublishDocsMain
  , stepPublishDocsLatest
  , stepCreateRelease ]

/-- The `publish:` job of publish.yml: `needs: build` and a job-level
`if:` restricting to pushes of main or dev. -/
def publishJob : WorkflowJob :=
  { jobId := "publish"
    condIf := some mainOrDevCond
    needs := ["build"]
    steps := publishJobSteps
    usesWorkflow := none }

/-- The jobs of publish.yml. -/
def publishWorkflowJobs : List WorkflowJob := [buildJob, publishJob]

/-- `github.ref` of a push to a branch. -/
def refOfBranch (branch : String) : String := "refs/heads/" ++ branch

/-- GitHub's `on: push:` filter semantics for publish.yml: the workflow
runs iff the pushed branch is listed under `branches:` and at least one
changed path is not matched by `paths-ignore:` (publish.yml's ignore
patterns are literal file names). -/
def pushTriggers (t : PushTrigger) (branch : String) (changedPaths : List String) : Bool :=
  t.branches.contains branch && changedPaths.any (fun p => !(t.pathsIgnore.contains p))

/-- Whether a job's `if:` condition holds for a value of `github.ref`
(a missing condition always holds). -/
def jobCondHolds (ref : String) (j : WorkflowJob) : Bool :=
  match j.condIf with
  | none => true
  | some c => evalCond ref c

/-- Whether a step's `if:` condition holds for a value of `github.ref`
(a missing condition always holds). -/
def stepCondHolds (ref : String) (s : WorkflowStep) : Bool :=
  match s.condIf with
  | none => true
  | some c => evalCond ref c

/-- A step of the `publish:` job executes on a push event iff the push
triggered the workflow, the `build` job it `needs:` succeeded, the
job-level `if:` holds, and the step's own `if:` holds. -/
def stepExecutes (branch : String) (changedPaths : List String) (buildOk : Bool)
    (s : WorkflowStep) : Bool :=
  pushTriggers publishTrigger branch changedPaths && buildOk
    && jobCondHolds (refOfBranch branch) publishJob
    && stepCondHolds (refOfBranch branch) s

/-- The package-publishing and documentation-publishing steps of the
`publish:` job. -/
def publishingSteps : List WorkflowStep :=
  publishJobSteps.filter (fun s => s.kind == .publishPackage || s.kind == .publishDocs)

/-! ## Syntactic embedding of the notebooks' own Python code

A small Python AST, sufficient for the code the notebooks define
themselves (mcc.ipynb's `compute_match_ratio`, `lookup_roi_name` and
the edge p-value loop cell). -/

/-- Python expressions as they occur in the notebooks' own code. -/
inductive PyExpr where
  | intLit (n : Int)
  | strLit (s : String)
  | name (x : String)
  | attr (recv : PyExpr) (field : String)
  | binop (op : String) (a b : PyExpr)
  | subscript (a i : PyExpr)
  | tupleE (elts : List PyExpr)
  | listDisplay (elts : List PyExpr)
  | sliceAll
  | sliceTo (e : PyExpr)
  | noneLit
  | boolLit (b : Bool)
  | starred (e : PyExpr)
  | kwarg (k : String) (v : PyExpr)
  | callLib (lib fn : String) (args : List PyExpr)
  | callMethod (recv : PyExpr) (m : String) (args : List PyExpr)
  | ternary (c t e : PyExpr)
  | fstring (parts : List PyExpr)
  | comprehension (elt : PyExpr) (x : String) (iter : PyExpr)

/-- Python statements as they occur in the notebooks' own code. -/
inductive PyStmt where
  | pass
  | assign (target : String) (value : PyExpr)
  | assignTuple (targets : List String) (value : PyExpr)
  | augAdd (target : String) (value : PyExpr)
  | exprStmt (e : PyExpr)
  | ret (e : PyExpr)
  | seq (a b : PyStmt)
  | forLoop (vars : List String) (iter : PyExpr) (body : PyStmt)
  | ifStmt (c : PyExpr) (thn els : PyStmt)
  | tryExcept (body : PyStmt) (excClass : String) (handler : PyStmt)

mutual

/-- Does `p` hold at some node of the expression? -/
def exprAnyNode (p : PyExpr → Bool) : PyExpr → Bool
  | .attr r f => p (.attr r f) || exprAnyNode p r
  | .binop op a b => p (.binop op a b) || exprAnyNode p a || exprAnyNode p b
  | .subscript a i => p (.subscript a i) || exprAnyNode p a || exprAnyNode p i
  | .tupleE es => p (.tupleE es) || exprsAnyNode p es
  | .listDisplay es => p (.listDisplay es) || exprsAnyNode p es
  | .sliceTo e => p (.sliceTo e) || exprAnyNode p e
  | .starred e => p (.starred e) || exprAnyNode p e
  | .kwarg k v => p (.kwarg k v) || exprAnyNode p v
  | .callLib l f args => p (.callLib l f args) || exprsAnyNode p args
  | .callMethod r m args => p (.callMethod r m args) || exprAnyNode p r || exprsAnyNode p args
  | .ternary c t e => p (.ternary c t e) || exprAnyNode p c || exprAnyNode p t || exprAnyNode p e
  | .fstring ps => p (.fstring ps) || exprsAnyNode p ps
  | .comprehension e x it => p (.comprehension e x it) || exprAnyNode p e || exprAnyNode p it
  | e => p e

/-- Does `p` hold at some node of some expression in the list? -/
def exprsAnyNode (p : PyExpr → Bool) : List PyExpr → Bool
  | [] => false
  | e :: es => exprAnyNode p e || exprsAnyNode p es

end

/-- Does `ps` hold at some statement node, or `pe` at some expression
node, of the statement? -/
def stmtAnyNode (ps : PyStmt → Bool) (pe : PyExpr → Bool) : PyStmt → Bool
  | .pass => ps .pass
  | .assign t v => ps (.assign t v) || exprAnyNode pe v
  | .assignTuple ts v => ps (.assignTuple ts v) || exprAnyNode pe v
  | .augAdd t v => ps (.augAdd t v) || exprAnyNode pe v
  | .exprStmt e => ps (.exprStmt e) || exprAnyNode pe e
  | .ret e => ps (.ret e) || exprAnyNode pe e
  | .seq a b => ps (.seq a b) || stmtAnyNode ps pe a || stmtAnyNode ps pe b
  | .forLoop vs it body =>
      ps (.forLoop vs it body) || exprAnyNode pe it || stmtAnyNode ps pe body
  | .ifStmt c t e =>
      ps (.ifStmt c t e) || exprAnyNode pe c || stmtAnyNode ps pe t || stmtAnyNode ps pe e
  | .tryExcept b ex h =>
      ps (.tryExcept b ex h) || stmtAnyNode ps pe b || stmtAnyNode ps pe h

/-- A statement contains a loop (a `for` statement or a comprehension). -/
def containsLoop (s : PyStmt) : Bool :=
  stmtAnyNode
    (fun st => match st with | .forLoop _ _ _ => true | _ => false)
    (fun e => match e with | .comprehension _ _ _ => true | _ => false) s

/-- A statement contains a conditional branch (an `if` statement or a
conditional expression). -/
def containsBranch (s : PyStmt) : Bool :=
  stmtAnyNode
    (fun st => match st with | .ifStmt _ _ _ => true | _ => false)
    (fun e => match e with | .ternary _ _ _ => true | _ => false) s

/-- A statement contains a `try`/`except` handler. -/
def containsTry (s : PyStmt) : Bool :=
  stmtAnyNode
    (fun st => match st with | .tryExcept _ _ _ => true | _ => false)
    (fun _ => false) s

/-- A statement performs some computation by its own logic rather than
delegating it to a library call: it contains an operator application,
an augmented assignment, a conditional, or a loop of its own. -/
def hasOwnComputation (s : PyStmt) : Bool :=
  stmtAnyNode
    (fun st => match st with
      | .augAdd _ _ => true | .forLoop _ _ _ => true | .ifStmt _ _ _ => true
      | _ => false)
    (fun e => match e with
      | .binop _ _ _ => true | .ternary _ _ _ => true | .comprehension _ _ _ => true
      | _ => false) s

/-- A function definition appearing in a notebook. -/
structure PyFunctionDef where
  fnName : String
  params : List String
  body : PyStmt

/-- A function delegates all of its computation to library calls. -/
def delegatesAllComputation (f : PyFunctionDef) : Bool :=
  !(hasOwnComputation f.body)

/-- A cataloged unit of notebook code (a cell or a function body). -/
structure NotebookCodeUnit where
  file : String
  label : String
  code : PyStmt

/-- `compute_match_ratio` as defined in the padded graph-matching
notebook concatenated into the mcc.ipynb staged file (the cell also
cited by the claims as mcc.ipynb lines 630-635); `keep_indices` is a
global defined earlier in the same document:
```
def compute_match_ratio(indices1, indices2):
    match_ratio = 0
    for i in range(len(indices2)):
        if (indices1[i] == keep_indices[i]) and (indices2[i] == i):
            match_ratio += 1
    return match_ratio / len(indices2)
``` -/
def compute_match_ratio_def : PyFunctionDef :=
  { fnName := "compute_match_ratio"
    params := ["indices1", "indices2"]
    body :=
      .seq (.assign "match_ratio" (.intLit 0))
        (.seq
          (.forLoop ["i"]
            (.callLib "builtins" "range" [.callLib "builtins" "len" [.name "indices2"]])
            (.ifStmt
              (.binop "and"
                (.binop "==" (.subscript (.name "indices1") (.name "i"))
                  (.subscript (.name "keep_indices") (.name "i")))
                (.binop "==" (.subscript (.name "indices2") (.name "i")) (.name "i")))
              (.augAdd "match_ratio" (.intLit 1))
              .pass))
          (.ret (.binop "/" (.name "match_ratio")
            (.callLib "builtins" "len" [.name "indices2"])))) }

/-- `lookup_roi_name` as defined in mcc.ipynb:
```
def lookup_roi_name(index):
    hemisphere = "R" if index // 166 else "L"
    index = index % 166
    roi_name = mice.atlas.query(f"ROI == {index+1}")["Structure"].item()
    return f"{roi_name} ({hemisphere})"
``` -/
def lookup_roi_name_def : PyFunctionDef :=
  { fnName := "lookup_roi_name"
    params := ["index"]
    body :=
      .seq
        (.assign "hemisphere"
          (.ternary (.binop "//" (.name "index") (.intLit 166))
            (.strLit "R") (.strLit "L")))
        (.seq (.assign "index" (.binop "%" (.name "index") (.intLit 166)))
          (.seq
            (.assign "roi_name"
              (.callMethod
                (.subscript
                  (.callMethod (.attr (.name "mice") "atlas") "query"
                    [.fstring [.strLit "ROI == ", .binop "+" (.name "index") (.intLit 1)]])
                  (.strLit "Structure"))
                "item" []))
            (.ret (.fstring
              [.name "roi_name", .strLit " (", .name "hemisphere", .strLit ")"])))) }

/-- The edge p-value loop cell of mcc.ipynb:
```
edge_pvals = []
for roi_i, roi_j in indices:
    samples = [genotype[:, roi_i, roi_j] for genotype in connectomes]
    try:
        statistic, pvalue = KSample("Dcorr").test(*samples, reps=10000, workers=-1)
    except ValueError:
        statistic = np.nan
        pvalue = 1
    edge_pvals.append([roi_i, roi_j, statistic, pvalue])
``` -/
def edgePvalLoopCell : PyStmt :=
  .seq (.assign "edge_pvals" (.listDisplay []))
    (.forLoop ["roi_i", "roi_j"] (.name "indices")
      (.seq
        (.assign "samples"
          (.comprehension
            (.subscript (.name "genotype")
              (.tupleE [.sliceAll, .name "roi_i", .name "roi_j"]))
            "genotype" (.name "connectomes")))
        (.seq
          (.tryExcept
            (.assignTuple ["statistic", "pvalue"]
              (.callMethod (.callLib "hyppo.ksample" "KSample" [.strLit "Dcorr"]) "test"
                [.starred (.name "samples"), .kwarg "reps" (.intLit 10000),
                 .kwarg "workers" (.intLit (-1))]))
            "ValueError"
            (.seq (.assign "statistic" (.attr (.name "np") "nan"))
              (.assign "pvalue" (.intLit 1))))
          (.exprStmt
            (.callMethod (.name "edge_pvals") "append"
              [.listDisplay
                [.name "roi_i", .name "roi_j", .name "statistic", .name "pvalue"]])))))

/-- `plot` as defined in the AutoGMM tutorial notebook (staged as
`unnamed/part_001`): it computes the component count by its own
arithmetic before delegating the drawing to seaborn/matplotlib:
```
def plot(title, c_hat, X):
    plt.figure(figsize=(10, 10))
    n_components = int(np.max(c_hat) + 1)
    palette = sns.color_palette("deep")[:n_components]
    fig = sns.scatterplot(x=X[:,0], y=X[:,1], hue=c_hat, legend=None, palette=palette)
    fig.set(xticks=[], yticks=[], title=title)
    plt.show()
``` -/
def autogmm_plot_def : PyFunctionDef :=
  { fnName := "plot"
    params := ["title", "c_hat", "X"]
    body :=
      .seq (.exprStmt (.callMethod (.name "plt") "figure"
          [.kwarg "figsize" (.tupleE [.intLit 10, .intLit 10])]))
        (.seq
          (.assign "n_components"
            (.callLib "builtins" "int"
              [.binop "+" (.callMethod (.name "np") "max" [.name "c_hat"]) (.intLit 1)]))
          (.seq
            (.assign "palette"
              (.subscript (.callMethod (.name "sns") "color_palette" [.strLit "deep"])
                (.sliceTo (.name "n_components"))))
            (.seq
              (.assign "fig"
                (.callMethod (.name "sns") "scatterplot"
                  [.kwarg "x" (.subscript (.name "X") (.tupleE [.sliceAll, .intLit 0])),
                   .kwarg "y" (.subscript (.name "X") (.tupleE [.sliceAll, .intLit 1])),
                   .kwarg "hue" (.name "c_hat"), .kwarg "legend" .noneLit,
                   .kwarg "palette" (.name "palette")]))
              (.seq
                (.exprStmt (.callMethod (.name "fig") "set"
                  [.kwarg "xticks" (.listDisplay []), .kwarg "yticks" (.listDisplay []),
                   .kwarg "title" (.name "title")]))
                (.exprStmt (.callMethod (.name "plt") "show" [])))))) }

/-- Function definitions appearing in the supplied files: the two the
claims cite in the mcc.ipynb staged file, and the AutoGMM notebook's
`plot`. Being functions defined in the supplied files, they refute any
universal claim over the supplied files' function definitions as soon
as one of them violates it. -/
def catalogedFunctionDefs : List PyFunctionDef :=
  [compute_match_ratio_def, lookup_roi_name_def, autogmm_plot_def]

/-- The cataloged units of notebook-authored code in mcc.ipynb cited by
the claims. -/
def catalogedCodeUnits : List NotebookCodeUnit :=
  [ { file := "docs/tutorials/connectomics/mcc.ipynb"
    , label := "edge p-value loop cell", code := edgePvalLoopCell }
  , { file := "docs/tutorials/connectomics/mcc.ipynb"
    , label := "def compute_match_ratio", code := compute_match_ratio_def.body }
  , { file := "docs/tutorials/connectomics/mcc.ipynb"
    , label := "def lookup_roi_name", code := lookup_roi_name_def.body } ]

/-- The per-edge substitution performed by the `except ValueError`
handler of the edge p-value cell, as a function of the library call's
outcome: on success the statistic and p-value are those returned by
`KSample("Dcorr").test`; on a `ValueError` (zero-variance input) the
cell itself substitutes `statistic = np.nan` (modelled as `none`) and
`pvalue = 1`. -/
def edgeStatPvalHandled (res : Except Unit (ℚ × ℚ)) : Option ℚ × ℚ :=
  match res with
  | .ok (s, p) => (some s, p)
  | .error _ => (none, 1)

/-! ## The file inventory of the repository slice -/

/-- Format of a file in the slice. -/
inductive FileFormat where
  | ipynbNotebook
  | yamlWorkflow
deriving DecidableEq, Repr

/-- A file of the repository slice: its path (the two files whose names
are unknown are listed by their placeholder paths), its format, and the
`graspologic` modules its import statements name. -/
structure SliceFile where
  path : String
  format : FileFormat
  graspologicImports : List String
deriving DecidableEq, Repr

/-- All thirteen files of the repository slice, with the `graspologic`
modules each notebook imports (taken from its `import`/`from`
statements). Two staged files carry a concatenated related document —
a padded graph-matching notebook inside mcc.ipynb and the build.yml
workflow inside latent_position_test.ipynb — and both of those satisfy
the same notebook-or-YAML dichotomy. -/
def sliceFiles : List SliceFile :=
  [ { path := ".github/workflows/publish.yml", format := .yamlWorkflow
    , graspologicImports := [] }
  , { path := "docs/tutorials/connectomics/mcc.ipynb", format := .ipynbNotebook
    , graspologicImports :=
        ["graspologic.datasets", "graspologic.embed", "graspologic.match",
         "graspologic.plot", "graspologic.simulations"] }
  , { path := "docs/tutorials/embedding/AdjacencySpectralEmbed.ipynb", format := .ipynbNotebook
    , graspologicImports :=
        ["graspologic.embed", "graspologic.plot", "graspologic.simulations"] }
  , { path := "docs/tutorials/embedding/CovariateAssistedEmbed.ipynb", format := .ipynbNotebook
    , graspologicImports :=
        ["graspologic", "graspologic.embed", "graspologic.plot",
         "graspologic.simulations", "graspologic.utils"] }
  , { path := "docs/tutorials/inference/density_test.ipynb", format := .ipynbNotebook
    , graspologicImports :=
        ["graspologic.inference.density", "graspologic.plot", "graspologic.simulations"] }
  , { path := "docs/tutorials/inference/group_connection_test.ipynb", format := .ipynbNotebook
    , graspologicImports :=
        ["graspologic.inference.group", "graspologic.plot", "graspologic.simulations"] }
  , { path := "docs/tutorials/inference/latent_distribution_test.ipynb", format := .ipynbNotebook
    , graspologicImports :=
        ["graspologic.embed", "graspologic.inference", "graspologic.plot",
         "graspologic.simulations", "graspologic.utils"] }
  , { path := "docs/tutorials/inference/latent_position_test.ipynb", format := .ipynbNotebook
    , graspologicImports :=
        ["graspologic.embed", "graspologic.inference", "graspologic.plot",
         "graspologic.simulations", "graspologic.utils"] }
  , { path := "docs/tutorials/matching/faq.ipynb", format := .ipynbNotebook
    , graspologicImports :=
        ["graspologic.match", "graspologic.plot", "graspologic.simulations"] }
  , { path := "docs/tutorials/plotting/heatmaps.ipynb", format := .ipynbNotebook
    , graspologicImports :=
        ["graspologic", "graspologic.plot", "graspologic.simulations"] }
  , { path := "docs/tutorials/simulations/rdpg_corr.ipynb", format := .ipynbNotebook
    , graspologicImports :=
        ["graspologic.plot", "graspologic.simulations", "graspologic.simulations.rdpg"] }
  , { path := "unnamed/part_000 (MASE tutorial notebook)", format := .ipynbNotebook
    , graspologicImports :=
        ["graspologic.cluster", "graspologic.embed", "graspologic.plot",
         "graspologic.simulations", "graspologic.utils"] }
  , { path := "unnamed/part_001 (AutoGMM tutorial notebook)", format := .ipynbNotebook
    , graspologicImports :=
        ["graspologic.cluster.autogmm", "graspologic.utils"] } ]

/-- A file satisfies the claim's dichotomy: it is a notebook that
imports the external `graspologic` library, or a YAML workflow. -/
def notebookOrYaml (f : SliceFile) : Bool :=
  (f.format == .ipynbNotebook && !(f.graspologicImports.isEmpty))
    || f.format == .yamlWorkflow

/-! ## Embedding of the graspologic Build workflow (build.yml)

The reusable workflow `./.github/workflows/build.yml`, which the
`build` job of publish.yml `uses:`, is part of the slice: it is the
document concatenated into
`docs/tutorials/inference/latent_position_test.ipynb`. Its five jobs
are embedded below. -/

/-- A job of the graspologic Build workflow: its id, its steps in file
order, and the lists of its `strategy: matrix:` (empty when the job
declares no matrix). No job of build.yml declares `needs:` or an
`if:`. -/
structure BuildWorkflowJob where
  jobId : String
  steps : List WorkflowStep
  matrixOS : List String
  matrixPython : List String
deriving DecidableEq, Repr

/-- The `static-code-analysis` job of build.yml: CodeQL analysis. -/
def staticCodeAnalysisJob : BuildWorkflowJob :=
  { jobId := "static-code-analysis"
    steps :=
      [ { name := "Checkout repository", condIf := none, kind := .checkout }
      , { name := "Initialize CodeQL", condIf := none, kind := .codeql }
      , { name := "Perform CodeQL Analysis", condIf := none, kind := .codeql } ]
    matrixOS := [], matrixPython := [] }

/-- The `build-reference-documentation` job of build.yml: runs
`sphinx-build` over `docs/` and archives the documentation-site
artifact that publish.yml later downloads. -/
def buildReferenceDocumentationJob : BuildWorkflowJob :=
  { jobId := "build-reference-documentation"
    steps :=
      [ { name := "actions/checkout@v2", condIf := none, kind := .checkout }
      , { name := "Set up Python 3.8", condIf := none, kind := .setupPython }
      , { name := "Run Reference Documentation Generation", condIf := none
        , kind := .buildSphinxDocs }
      , { name := "Archive documentation version artifact", condIf := none
        , kind := .uploadArtifact }
      , { name := "Archive documentation artifacts", condIf := none
        , kind := .uploadArtifact } ]
    matrixOS := [], matrixPython := [] }

/-- The `code-format-check` job of build.yml: runs `black --check` and
`isort --check-only`. -/
def codeFormatCheckJob : BuildWorkflowJob :=
  { jobId := "code-format-check"
    steps :=
      [ { name := "actions/checkout@v2", condIf := none, kind := .checkout }
      , { name := "Set up Python 3.8", condIf := none, kind := .setupPython }
      , { name := "Run Format Check", condIf := none, kind := .runLint } ]
    matrixOS := [], matrixPython := [] }

/-- The `test-coverage` job of build.yml: runs
`pytest --co --cov=graspologic`. -/
def testCoverageJob : BuildWorkflowJob :=
  { jobId := "test-coverage"
    steps :=
      [ { name := "actions/checkout@v2", condIf := none, kind := .checkout }
      , { name := "Set up Python 3.8", condIf := none, kind := .setupPython }
      , { name := "Run Test Coverage", condIf := none, kind := .runCoverage } ]
    matrixOS := [], matrixPython := [] }

/-- The `unit-and-doc-test` job of build.yml: over a matrix of three
operating systems and four Python versions, installs dependencies, runs
`pytest tests`, and runs `mypy ./graspologic`. The templated step names
contain GitHub expression braces, written here escaped. -/
def unitAndDocTestJob : BuildWorkflowJob :=
  { jobId := "unit-and-doc-test"
    steps :=
      [ { name := "actions/checkout@v2", condIf := none, kind := .checkout }
      , { name := "Set up Python $\x7b\x7bmatrix.python_version\x7d\x7d $\x7b\x7bmatrix.os\x7d\x7d"
        , condIf := none, kind := .setupPython }
      , { name := "Install dependencies Python $\x7b\x7bmatrix.python_version\x7d\x7d $\x7b\x7bmatrix.os\x7d\x7d"
        , condIf := none, kind := .installDeps }
      , { name := "Run Unit Tests and Doctests Python $\x7b\x7bmatrix.python_version\x7d\x7d $\x7b\x7bmatrix.os\x7d\x7d"
        , condIf := none, kind := .runTests }
      , { name := "Run mypy type check Python $\x7b\x7bmatrix.python_version\x7d\x7d $\x7b\x7bmatrix.os\x7d\x7d"
        , condIf := none, kind := .typeCheck }
      , { name := "Generate dependency tree", condIf := none, kind := .depTree }
      , { name := "Archive dependency tree", condIf := none, kind := .uploadArtifact } ]
    matrixOS := ["ubuntu-latest", "windows-latest", "macos-latest"]
    matrixPython := ["3.8", "3.9", "3.10", "3.11"] }

/-- The jobs of build.yml, in file order. -/
def buildYmlJobs : List BuildWorkflowJob :=
  [ staticCodeAnalysisJob, buildReferenceDocumentationJob, codeFormatCheckJob
  , testCoverageJob, unitAndDocTestJob ]

/-- The `on:` events of build.yml: `push` (with branches-ignore
`dev`/`main` and the same paths-ignore as publish.yml),
`pull_request` (same paths-ignore), and `workflow_call` — the last is
what publish.yml's `build` job invokes. -/
def buildYmlTriggerEvents : List String := ["push", "pull_request", "workflow_call"]

/-- The step kinds defined by the slice's CI pipeline: the steps of the
`publish:` job of publish.yml together with those of every job of the
build.yml workflow its `build:` job delegates to. -/
def pipelineStepKinds : List CIStepKind :=
  publishJobSteps.map (fun s => s.kind)
    ++ (buildYmlJobs.map (fun j => j.steps.map (fun s => s.kind))).flatten

/-! ## Semantic embedding of `compute_match_ratio` -/

/-- Runtime errors the Python code of `compute_match_ratio` can raise. -/
inductive PyRunErr where
  | indexError
  | zeroDivisionError
deriving DecidableEq, Repr

/-- One iteration of `compute_match_ratio`'s loop body, with Python's
evaluation order and `and` short-circuiting: `indices1[i]` is read
first, then `keep_indices[i]`; `indices2[i]` is read only when the
first equality holds; an out-of-range read raises `IndexError`. -/
def cmrBody (keep_indices indices1 indices2 : List ℤ) (acc : ℕ) (i : ℕ) :
    Except PyRunErr ℕ :=
  match indices1[i]? with
  | none => .error .indexError
  | some a =>
    match keep_indices[i]? with
    | none => .error .indexError
    | some k =>
      if a = k then
        match indices2[i]? with
        | none => .error .indexError
        | some b => .ok (if b = (i : ℤ) then acc + 1 else acc)
      else .ok acc

/-- `compute_match_ratio` of mcc.ipynb as a function: the notebook
global `keep_indices` is passed as the first argument, the entries are
the integer entries of the numpy index arrays, and the final
`match_ratio / len(indices2)` is rational true division, raising
`ZeroDivisionError` when `indices2` is empty. -/
def compute_match_ratio (keep_indices indices1 indices2 : List ℤ) :
    Except PyRunErr ℚ :=
  ((List.range indices2.length).foldlM (cmrBody keep_indices indices1 indices2) 0).bind
    (fun m => if indices2.length = 0 then .error .zeroDivisionError
      else .ok ((m : ℚ) / (indices2.length : ℚ)))

/-- Position `i` is a match: `indices1[i] == keep_indices[i]` and
`indices2[i] == i`. -/
def matchPred (keep_indices indices1 indices2 : List ℤ) (i : ℕ) : Bool :=
  decide (indices1.getD i 0 = keep_indices.getD i 0 ∧ indices2.getD i 0 = (i : ℤ))

/-- The number of positions `i` in `[0, len(indices2))` with
`indices1[i] == keep_indices[i]` and `indices2[i] == i`. -/
def matchCount (keep_indices indices1 indices2 : List ℤ) : ℕ :=
  (List.range indices2.length).countP (matchPred keep_indices indices1 indices2)

end Graspologic

namespace Graspologic

/-! ## Theorems about the publish workflow -/

/-- C1: for every push event processed by the publish workflow, the
`Publish with twine` step and the three GitHub Pages
documentation-publishing steps execute only when the pushed ref is
`refs/heads/main` or `refs/heads/dev`; contrapositively, a push to any
other branch publishes no package and no documentation. -/
theorem publishing_steps_only_on_main_or_dev (b : String) (ps : List String)
    (buildOk : Bool) (s : WorkflowStep) (_hs : s ∈ publishingSteps)
    (h : stepExecutes b ps buildOk s = true) :
    refOfBranch b = "refs/heads/main" ∨ refOfBranch b = "refs/heads/dev" := by
  have htr : pushTriggers publishTrigger b ps = true := by
    simp only [stepExecutes, Bool.and_eq_true] at h
    exact h.1.1.1
  have hb : b = "main" ∨ b = "dev" := by
    simp [pushTriggers, List.contains, publishTrigger] at htr
    exact htr.1
  rcases hb with hb | hb <;> rw [hb]
  · left; rfl
  · right; rfl

/-- Witness for `publishing_steps_only_on_main_or_dev` at a concrete
push of `setup.py` to `main` and the twine step. -/
theorem publishing_steps_only_on_main_or_dev_witness :
    refOfBranch "main" = "refs/heads/main" ∨ refOfBranch "main" = "refs/heads/dev" :=
  publishing_steps_only_on_main_or_dev "main" ["setup.py"] true
    stepPublishTwine (by decide) (by decide)

/-- C8: in any single run of the publish job the `Build Release with
setuptools` and `Build Prerelease with setuptools` steps never both
execute (their `if:` conditions on `github.ref` are mutually
exclusive), and the `Create tag and GitHub release` step's condition
holds only when the ref is `refs/heads/main`, hence never on
`refs/heads/dev`. -/
theorem build_release_prerelease_exclusive (ref : String) :
    (stepCondHolds ref stepBuildRelease && stepCondHolds ref stepBuildPrerelease) = false ∧
    (stepCondHolds ref stepCreateRelease = true →
      ref = "refs/heads/main" ∧ ref ≠ "refs/heads/dev") := by
  constructor
  · by_cases h : ref = "refs/heads/main" <;>
      simp [stepBuildRelease, stepBuildPrerelease, stepCondHolds, evalCond, h]
  · intro h
    have hm : ref = "refs/heads/main" := by
      simpa [stepCreateRelease, stepCondHolds, evalCond] using h
    subst hm
    exact ⟨rfl, by decide⟩

/-- Witness for `build_release_prerelease_exclusive` at
`github.ref = refs/heads/main`. -/
theorem build_release_prerelease_exclusive_witness :
    "refs/heads/main" = "refs/heads/main" ∧ "refs/heads/main" ≠ "refs/heads/dev" :=
  (build_release_prerelease_exclusive "refs/heads/main").2 (by decide)

/-- C9: the `on: push:` filter of publish.yml triggers the workflow
exactly when the pushed branch is `main` or `dev` and not every changed
path is `.all-contributorsrc` or `CONTRIBUTORS.md`: a push to any other
branch never triggers it, a push all of whose changed paths lie in the
ignore list never triggers it, and every other push to `main` or `dev`
triggers it. -/
theorem publish_trigger_iff (b : String) (ps : List String) :
    pushTriggers publishTrigger b ps = true ↔
      (b = "main" ∨ b = "dev") ∧
        ¬ (∀ p ∈ ps, p = ".all-contributorsrc" ∨ p = "CONTRIBUTORS.md") := by
  constructor
  · intro h
    rw [pushTriggers, Bool.and_eq_true] at h
    obtain ⟨h1, h2⟩ := h
    constructor
    · simpa [publishTrigger, List.contains] using h1
    · rw [List.any_eq_true] at h2
      obtain ⟨p, hp, hne⟩ := h2
      intro hall
      rcases hall p hp with h | h <;> simp [publishTrigger, h] at hne
  · rintro ⟨hb, hnall⟩
    rw [pushTriggers, Bool.and_eq_true]
    constructor
    · simpa [publishTrigger, List.contains] using hb
    · rw [List.any_eq_true]
      push_neg at hnall
      obtain ⟨p, hp, h1, h2⟩ := hnall
      exact ⟨p, hp, by simp [publishTrigger, h1, h2]⟩

/-! ## Theorems about the notebooks' own code -/

/-- Counterexample to C3 as stated: it is not the case that every
function defined in the supplied files delegates all computation to
library calls — `compute_match_ratio`, defined in mcc.ipynb, computes
its result with its own loop, branch and arithmetic. -/
theorem not_all_functions_delegate :
    ¬ (∀ f ∈ catalogedFunctionDefs, delegatesAllComputation f = true) := by
  decide

/-- C3 amended: the supplied files do define functions with original
computational logic — among them `compute_match_ratio` (loop, branch
and arithmetic) and `lookup_roi_name` (integer division, modulus and a
conditional) in the mcc.ipynb staged file, and the AutoGMM notebook's
`plot` (computes the component count by its own arithmetic) — rather
than delegating every computational step to a library call. -/
theorem helper_functions_have_own_logic :
    delegatesAllComputation compute_match_ratio_def = false ∧
      delegatesAllComputation lookup_roi_name_def = false ∧
      delegatesAllComputation autogmm_plot_def = false := by
  decide

/-- Counterexample to C4 as stated: it is not the case that no code in
the slice handles a failure mode — the edge p-value loop cell of
mcc.ipynb contains a `try`/`except ValueError` handler of its own. -/
theorem not_all_error_handling_external :
    ¬ (∀ u ∈ catalogedCodeUnits, containsTry u.code = false) := by
  decide

/-- C4 amended: the slice contains one piece of original error-handling
logic — the `try`/`except ValueError` around `KSample("Dcorr").test` in
mcc.ipynb's edge p-value loop, whose handler substitutes
`statistic = np.nan` and `pvalue = 1` when the library raises on a
zero-variance input. -/
theorem edge_pval_cell_handles_value_error :
    containsTry edgePvalLoopCell = true ∧
      edgeStatPvalHandled (.error ()) = (none, 1) ∧
      (∀ s p : ℚ, edgeStatPvalHandled (.ok (s, p)) = (some s, p)) := by
  refine ⟨by decide, rfl, fun s p => rfl⟩

/-- Counterexample to C5 as stated: it is not the case that no function
or cell in the supplied files contains loops or conditional branches —
`compute_match_ratio` in mcc.ipynb contains a `for` loop. -/
theorem not_all_code_loop_free :
    ¬ (∀ u ∈ catalogedCodeUnits, containsLoop u.code = false ∧ containsBranch u.code = false) := by
  decide

/-- C5 amended: while notebook cells execute sequentially, the supplied
files do contain intra-cell control flow — `compute_match_ratio`
contains a `for` loop with an `if` branch, the edge p-value cell
contains a `for` loop (and a comprehension), and `lookup_roi_name`
contains a conditional expression. -/
theorem mcc_code_has_control_flow :
    containsLoop compute_match_ratio_def.body = true ∧
      containsBranch compute_match_ratio_def.body = true ∧
      containsLoop edgePvalLoopCell = true ∧
      containsBranch lookup_roi_name_def.body = true := by
  decide

/-- Counterexample to C6 as stated: it is not the case that no
declaration in the supplied files orders one job after another — the
`publish` job of publish.yml declares `needs: build`. -/
theorem not_all_jobs_unordered :
    ¬ (∀ j ∈ publishWorkflowJobs, j.needs = []) := by
  decide

/-- C6 amended: the static CI declarations contain exactly one
job-ordering declaration — the `publish` job declares `needs: build`,
so its steps run only after the `build` job has completed successfully;
the `build` job itself declares no ordering. -/
theorem publish_job_needs_build :
    publishJob.needs = ["build"] ∧ buildJob.needs = [] ∧
      (∀ b ps s, stepExecutes b ps false s = false) := by
  refine ⟨rfl, rfl, fun b ps s => ?_⟩
  simp [stepExecutes]

/-- C7: every one of the thirteen files of the slice is either a
Jupyter notebook whose import statements call into the external
`graspologic` library, or a YAML CI workflow definition; no file of any
other kind is present. -/
theorem every_file_notebook_or_yaml :
    sliceFiles.length = 13 ∧ sliceFiles.all notebookOrYaml = true := by
  decide

/-- C2: the CI workflow files of the slice — publish.yml together with
the graspologic Build workflow (build.yml) that its `build` job
`uses:` — define steps that install dependencies, run tests (`pytest`)
and type checks (`mypy`) across a matrix of three operating systems and
four Python versions, build the Sphinx documentation, and run linters
(`black`/`isort`), in addition to the packaging and publishing steps of
publish.yml. -/
theorem ci_pipeline_defines_claimed_steps :
    buildJob.usesWorkflow = some "./.github/workflows/build.yml" ∧
    buildYmlTriggerEvents.contains "workflow_call" = true ∧
    [CIStepKind.installDeps, .runTests, .typeCheck, .buildSphinxDocs, .runLint,
      .buildPackage, .publishPackage, .publishDocs].all
        (fun k => pipelineStepKinds.contains k) = true ∧
    unitAndDocTestJob.matrixOS = ["ubuntu-latest", "windows-latest", "macos-latest"] ∧
    unitAndDocTestJob.matrixPython = ["3.8", "3.9", "3.10", "3.11"] ∧
    ((unitAndDocTestJob.steps.map (fun s => s.kind)).contains .runTests
      && (unitAndDocTestJob.steps.map (fun s => s.kind)).contains .typeCheck
      && (unitAndDocTestJob.steps.map (fun s => s.kind)).contains .installDeps) = true ∧
    (codeFormatCheckJob.steps.map (fun s => s.kind)).contains .runLint = true ∧
    (buildReferenceDocumentationJob.steps.map (fun s => s.kind)).contains
      .buildSphinxDocs = true := by
  decide

/-! ## Theorems about `compute_match_ratio` -/

/-- The loop of `compute_match_ratio` succeeds and counts the matching
positions, provided every visited index is in range of all three
lists. -/
theorem cmr_loop_ok (keep i1 i2 : List ℤ) (l : List ℕ) (acc : ℕ)
    (hl : ∀ i ∈ l, i < i1.length ∧ i < keep.length ∧ i < i2.length) :
    l.foldlM (cmrBody keep i1 i2) acc =
      .ok (acc + l.countP (matchPred keep i1 i2)) := by
  induction l generalizing acc with
  | nil => simp; rfl
  | cons x xs ih =>
    obtain ⟨hx1, hxk, hx2⟩ := hl x (List.mem_cons_self x xs)
    have h1 : i1[x]? = some i1[x] := List.getElem?_eq_getElem hx1
    have hk2 : keep[x]? = some keep[x] := List.getElem?_eq_getElem hxk
    have h2 : i2[x]? = some i2[x] := List.getElem?_eq_getElem hx2
    have hbody : cmrBody keep i1 i2 acc x =
        .ok (if matchPred keep i1 i2 x then acc + 1 else acc) := by
      rw [cmrBody, h1, hk2, h2]
      by_cases hak : i1[x] = keep[x] <;>
        by_cases hbi : i2[x] = (x : ℤ) <;>
        simp [matchPred, hak, hbi, List.getD_eq_getElem?_getD,
          List.getElem?_eq_getElem, hx1, hxk, hx2, h1, hk2, h2]
    rw [List.foldlM_cons, hbody]
    show (xs.foldlM (cmrBody keep i1 i2) _) = _
    rw [ih _ (fun i hi => hl i (List.mem_cons_of_mem _ hi))]
    congr 1
    rw [List.countP_cons]
    by_cases hp : matchPred keep i1 i2 x <;> simp [hp] <;> omega

/-- C10: whenever `indices1` and the ambient `keep_indices` each have
at least `len(indices2)` entries, `compute_match_ratio` hits a
`ZeroDivisionError` exactly when `indices2` is empty, and on non-empty
`indices2` returns the number of positions `i` in `[0, len(indices2))`
with `indices1[i] == keep_indices[i]` and `indices2[i] == i`, divided
by `len(indices2)` — a value in `[0, 1]`. -/
theorem compute_match_ratio_spec (keep i1 i2 : List ℤ)
    (h1 : i2.length ≤ i1.length) (hk : i2.length ≤ keep.length) :
    (compute_match_ratio keep i1 i2 = .error .zeroDivisionError ↔ i2 = []) ∧
    (i2 ≠ [] →
      compute_match_ratio keep i1 i2 =
        .ok ((matchCount keep i1 i2 : ℚ) / (i2.length : ℚ)) ∧
      0 ≤ (matchCount keep i1 i2 : ℚ) / (i2.length : ℚ) ∧
      (matchCount keep i1 i2 : ℚ) / (i2.length : ℚ) ≤ 1) := by
  have hloop : (List.range i2.length).foldlM (cmrBody keep i1 i2) 0 =
      .ok (matchCount keep i1 i2) := by
    rw [cmr_loop_ok keep i1 i2 _ 0 ?_]
    · rw [matchCount, Nat.zero_add]
    · intro i hi
      rw [List.mem_range] at hi
      exact ⟨lt_of_lt_of_le hi h1, lt_of_lt_of_le hi hk, hi⟩
  constructor
  · constructor
    · intro h
      by_contra hne
      have hlen : i2.length ≠ 0 := fun h0 => hne (List.length_eq_zero.mp h0)
      rw [compute_match_ratio, hloop] at h
      simp [Except.bind, hlen] at h
    · intro h
      subst h
      rfl
  · intro hne
    have hlen : i2.length ≠ 0 := fun h0 => hne (List.length_eq_zero.mp h0)
    have hq : compute_match_ratio keep i1 i2 =
        .ok ((matchCount keep i1 i2 : ℚ) / (i2.length : ℚ)) := by
      rw [compute_match_ratio, hloop]
      simp [Except.bind, hlen]
    refine ⟨hq, ?_, ?_⟩
    · positivity
    · rw [div_le_one (by positivity)]
      exact_mod_cast (by
        simpa [matchCount] using
          List.countP_le_length (l := List.range i2.length) (p := matchPred keep i1 i2) :
        matchCount keep i1 i2 ≤ i2.length)

/-- Witness for `compute_match_ratio_spec` at the concrete call with
`keep_indices = [0, 9]`, `indices1 = [0, 8]`, `indices2 = [0, 1]`
(there the ratio is 1/2). -/
theorem compute_match_ratio_spec_witness :
    (compute_match_ratio [0, 9] [0, 8] [0, 1] = .error .zeroDivisionError ↔
      ([0, 1] : List ℤ) = []) ∧
    (([0, 1] : List ℤ) ≠ [] →
      compute_match_ratio [0, 9] [0, 8] [0, 1] =
        .ok ((matchCount [0, 9] [0, 8] [0, 1] : ℚ) / (([0, 1] : List ℤ).length : ℚ)) ∧
      0 ≤ (matchCount [0, 9] [0, 8] [0, 1] : ℚ) / (([0, 1] : List ℤ).length : ℚ) ∧
      (matchCount [0, 9] [0, 8] [0, 1] : ℚ) / (([0, 1] : List ℤ).length : ℚ) ≤ 1) :=
  compute_match_ratio_spec [0, 9] [0, 8] [0, 1] (by decide) (by decide)

end Graspologic
